import Mathlib

/-!
Verification of the pkg-fetch node.v14.16.0 patch set.

The definitions below are a shallow embedding of the routines the patch
adds or modifies:
  * SerializedCodeData::SanityCheck (deps/v8/src/snapshot/code-serializer.cc)
  * V8::EnableCompilationForSourcelessUse / DisableCompilationForSourcelessUse
    and the global save_lazy / save_predictable slots (deps/v8/src/api/api.cc)
  * V8::FixSourcelessScript (deps/v8/src/api/api.cc)
  * SharedFunctionInfo::ShouldFlushBytecode
    (deps/v8/src/objects/shared-function-info-inl.h)
  * JSFunction::ToString, class-positions branch (deps/v8/src/objects/js-objects.cc)
  * ParseFunction guard (deps/v8/src/parsing/parsing.cc)
  * ContextifyScript::New (src/node_contextify.cc)
  * prepareMainThreadExecution guard (lib/internal/bootstrap/pre_execution.js)
  * reorder / adjacent / should_set_dummy / BAKERY (src/node_main.cc)
  * the bootstrap loader readPrelude (lib/internal/bootstrap/pkg.js)
-/

namespace PkgPatch

/-! ## Cache validator: SerializedCodeData::SanityCheck -/

/-- Result enum of SerializedCodeData::SanityCheck (code-serializer.h). -/
inductive SanityCheckResult where
  | CHECK_SUCCESS
  | MAGIC_NUMBER_MISMATCH
  | VERSION_MISMATCH
  | SOURCE_MISMATCH
  | FLAGS_MISMATCH
  | CHECKSUM_MISMATCH
  | LENGTH_MISMATCH
deriving DecidableEq, Repr

/-- A serialized code-cache blob: its header fields and the opaque bytecode
payload.  `sourceHash` is the header slot at kSourceHashOffset; the patched
SanityCheck no longer reads it.  `size` is the total blob size in bytes. -/
structure SerializedCodeData where
  magicNumber : Nat
  versionHash : Nat
  sourceHash : Nat
  flagsHash : Nat
  payloadLength : Nat
  checksumField : Nat
  size : Nat
  payload : List Nat
deriving DecidableEq, Repr

/-- A blob together with the source text it was produced from.  The source
is provenance only: it is not part of the serialized bytes. -/
structure ProducedBlob where
  blob : SerializedCodeData
  originSource : String

/-- Build-environment values SanityCheck compares against: kMagicNumber,
Version::Hash(), FlagList::Hash(), POINTER_SIZE_ALIGN(kHeaderSize), and the
Checksum function over the checksummed content. -/
structure CodeSerializerEnv where
  kMagicNumber : Nat
  versionHashOfBuild : Nat
  flagListHash : Nat
  kHeaderSizeAligned : Nat
  checksum : List Nat → Nat

/-- SerializedCodeData::SanityCheck as patched: the kSourceHashOffset read
and the source-hash comparison are deleted; `expectedSourceHash` (still in
the signature) is ignored. -/
def sanityCheck (env : CodeSerializerEnv) (expectedSourceHash : Nat)
    (d : SerializedCodeData) : SanityCheckResult :=
  if d.magicNumber ≠ env.kMagicNumber then .MAGIC_NUMBER_MISMATCH
  else if d.versionHash ≠ env.versionHashOfBuild then .VERSION_MISMATCH
  else if d.flagsHash ≠ env.flagListHash then .FLAGS_MISMATCH
  else if d.payloadLength > d.size - env.kHeaderSizeAligned then .LENGTH_MISMATCH
  else if env.checksum d.payload ≠ d.checksumField then .CHECKSUM_MISMATCH
  else .CHECK_SUCCESS

/-! ## Compilation flag controller and ContextifyScript::New -/

/-- The two engine-wide flags plus the global snapshot slots save_lazy and
save_predictable from api.cc. -/
structure V8Flags where
  lazy : Bool
  predictable : Bool
  save_lazy : Bool
  save_predictable : Bool
deriving DecidableEq, Repr

/-- V8::EnableCompilationForSourcelessUse: snapshot both flags, then force
lazy compilation off and predictable mode on. -/
def enableCompilationForSourcelessUse (f : V8Flags) : V8Flags :=
  { lazy := false, predictable := true,
    save_lazy := f.lazy, save_predictable := f.predictable }

/-- V8::DisableCompilationForSourcelessUse: write the snapshot slots back
into the two flags. -/
def disableCompilationForSourcelessUse (f : V8Flags) : V8Flags :=
  { f with lazy := f.save_lazy, predictable := f.save_predictable }

/-- Inputs of ContextifyScript::New that matter to the patched control flow:
the new eighth `sourceless` argument, produce_cached_data, whether cached
data was supplied (compile_options == kConsumeCodeCache), the engine verdict
on that cached data, and whether CompileUnboundScript returned empty. -/
structure NewArgs where
  sourceless : Bool
  produceCachedData : Bool
  hasCachedData : Bool
  cacheRejected : Bool
  compileFails : Bool
deriving DecidableEq, Repr

/-- Observable result of a successful ContextifyScript::New: the
cachedDataRejected property set on the script object (only when consuming a
cache), and whether V8::FixSourcelessScript was applied to the script. -/
structure ContextifyResult where
  cachedDataRejected : Option Bool
  sourceFixed : Bool
deriving DecidableEq, Repr

/-- ContextifyScript::New (src/node_contextify.cc) restricted to the patched
control flow.  Enable runs before the compile when sourceless and
produce_cached_data; the compile-failure branch RETURNS EARLY, before the
Disable call at the bottom of the function; FixSourcelessScript runs only
when sourceless, consuming a cache, and the cache was not rejected. -/
def contextifyScriptNew (a : NewArgs) (f : V8Flags) :
    Option ContextifyResult × V8Flags :=
  let f1 := if a.sourceless && a.produceCachedData
            then enableCompilationForSourcelessUse f else f
  if a.compileFails then
    (none, f1)
  else
    let r : ContextifyResult :=
      { cachedDataRejected := if a.hasCachedData then some a.cacheRejected else none,
        sourceFixed := a.sourceless && a.hasCachedData && !a.cacheRejected }
    let f2 := if a.sourceless && a.produceCachedData
              then disableCompilationForSourcelessUse f1 else f1
    (some r, f2)

/-- Outcome the compile surfaces to the caller of the script host. -/
inductive HostOutcome where
  | ok (r : ContextifyResult)
  | compileError
  | configurationError
deriving DecidableEq, Repr

/-- Modelled from the spec: the host layer above ContextifyScript::New that
raises ConfigurationError when a sourceless compile consumed a cache the
engine rejected and no cache is being produced (spec section 4.5 table, row
sourceless and cachedData rejected, and section 7).  The raising code lives
in the externally supplied prelude, not in the patch under src/. -/
def hostCompile (a : NewArgs) (f : V8Flags) : HostOutcome × V8Flags :=
  match contextifyScriptNew a f with
  | (none, f2) => (.compileError, f2)
  | (some r, f2) =>
      if a.sourceless && !a.produceCachedData && (r.cachedDataRejected == some true)
      then (.configurationError, f2)
      else (.ok r, f2)

/-! ## Sourceless script transform and source-presence-aware accessors -/

/-- The source slot of a v8 Script: either a string or the undefined value
that FixSourcelessScript writes into it. -/
inductive SourceSlot where
  | str (s : String)
  | undef
deriving DecidableEq, Repr

/-- A v8 Script object, restricted to its source slot. -/
structure VScript where
  source : SourceSlot
deriving DecidableEq, Repr

/-- V8::FixSourcelessScript: overwrite the script source with the
undefined value. -/
def fixSourcelessScript (sc : VScript) : VScript :=
  { sc with source := SourceSlot.undef }

/-- Bytecode flush modes of v8 (BytecodeFlushMode). -/
inductive BytecodeFlushMode where
  | kDoNotFlushBytecode
  | kFlushBytecode
  | kStressFlushBytecode
deriving DecidableEq, Repr

/-- The function_data field of a SharedFunctionInfo, as far as
ShouldFlushBytecode inspects it: a bytecode array (with its age-based
IsOld verdict) or anything else. -/
inductive FunctionData where
  | bytecodeArray (isOld : Bool)
  | other
deriving DecidableEq, Repr

/-- A SharedFunctionInfo, restricted to the fields ShouldFlushBytecode
reads: the script slot (which can itself be undefined) and function_data. -/
structure SharedFunctionInfo where
  script : Option VScript
  functionData : FunctionData
deriving DecidableEq, Repr

/-- SharedFunctionInfo::ShouldFlushBytecode as patched.  The opening
kDoNotFlushBytecode guard is the enclosing function's first line; the patch
inserts, after the bytecode-array check, a guard returning false whenever
the script exists and its source is undefined, ahead of the
kStressFlushBytecode shortcut and the age check. -/
def shouldFlushBytecode (sfi : SharedFunctionInfo) (mode : BytecodeFlushMode) : Bool :=
  if mode = .kDoNotFlushBytecode then false
  else
    match sfi.functionData with
    | .other => false
    | .bytecodeArray isOld =>
        match sfi.script with
        | some sc =>
            if sc.source = SourceSlot.undef then false
            else if mode = .kStressFlushBytecode then true
            else isOld
        | none =>
            if mode = .kStressFlushBytecode then true
            else isOld

/-- JSFunction::ToString, class-positions branch, instrumented: the Bool
records whether the branch sliced the stored source.  The patch returns the
fixed string before the position-based slice whenever the script source is
undefined. -/
def jsFunctionToStringClassCase (src : SourceSlot) (startPos endPos : Nat) :
    String × Bool :=
  match src with
  | SourceSlot.undef => ("class \x7b\x7d", false)
  | SourceSlot.str s => (String.mk ((s.data.drop startPos).take (endPos - startPos)), true)

/-- ParseFunction (deps/v8/src/parsing/parsing.cc) as patched: return false
(fail fast) when the script source is undefined, instead of dereferencing
it as a string. -/
def parseFunctionGuard (sc : VScript) : Bool :=
  match sc.source with
  | SourceSlot.undef => false
  | SourceSlot.str _ => true

/-- Operations of the patched engine that touch a script during the life of
a compiled unit.  fixSourceless is the only writer of the source slot; the
accessors read it without mutating. -/
inductive UnitOp where
  | fixSourceless
  | toStringClassCase (startPos endPos : Nat)
  | shouldFlush (mode : BytecodeFlushMode)
  | parse
deriving DecidableEq, Repr

/-- State effect of one operation on the script. -/
def applyUnitOp (op : UnitOp) (sc : VScript) : VScript :=
  match op with
  | .fixSourceless => fixSourcelessScript sc
  | .toStringClassCase _ _ => sc
  | .shouldFlush _ => sc
  | .parse => sc

/-- State of the script after a sequence of operations. -/
def runUnitOps : List UnitOp → VScript → VScript
  | [], sc => sc
  | op :: rest, sc => runUnitOps rest (applyUnitOp op sc)

/-! ## Idempotent bootstrap guard: prepareMainThreadExecution -/

/-- State seen by prepareMainThreadExecution: the module-level
_alreadyPrepared flag and the rest of the process state (abstract). -/
structure PrepState (σ : Type) where
  alreadyPrepared : Bool
  proc : σ

/-- prepareMainThreadExecution as patched: return immediately when the
guard is set, otherwise set it and run the preparation steps (the body of
the routine, abstracted as `steps`) on the process state. -/
def prepareMainThreadExecution {σ : Type} (steps : Bool → σ → σ)
    (expandArgv1 : Bool) (s : PrepState σ) : PrepState σ :=
  if s.alreadyPrepared = true then s
  else { alreadyPrepared := true, proc := steps expandArgv1 s.proc }

/-- The guard at process start: `let _alreadyPrepared = false`. -/
def initialPrepState {σ : Type} (proc : σ) : PrepState σ :=
  { alreadyPrepared := false, proc := proc }

/-! ## Argv relay launcher: strlen2, BAKERY, should_set_dummy, reorder, adjacent -/

/-- The NUL character terminating C strings. -/
def nulChar : Char := Char.ofNat 0

/-- strlen2 from node_main.cc: length of the C string at the head of the
buffer, counting up to the first NUL (or to the end of the region). -/
def strlen2 : List Char → Nat
  | [] => 0
  | c :: rest => if c = nulChar then 0 else 1 + strlen2 rest

/-- One step of reorder's marker scan, fuelled by the number of remaining
strings: read the C string at the cursor; stop on width zero, otherwise
collect it and advance past its NUL. -/
def scanMarkersAux : Nat → List Char → List String
  | 0, _ => []
  | fuel + 1, buf =>
      let width := strlen2 buf
      if width = 0 then []
      else String.mk (buf.take width) :: scanMarkersAux fuel (buf.drop (width + 1))

/-- The marker strings reorder's while-loop collects from the BAKERY
region.  The loop runs at most one iteration per remaining byte, so the
buffer length bounds the fuel. -/
def scanMarkers (buf : List Char) : List String :=
  scanMarkersAux buf.length buf

/-- The BAKERY literal from node_main.cc, byte for byte: it begins with a
NUL so that an unpatched binary carries an empty marker sequence. -/
def BAKERY : String :=
  "\x00// BAKERY // BAKERY " ++
  "// BAKERY // BAKERY // BAKERY // BAKERY // BAKERY // BAKERY " ++
  "// BAKERY // BAKERY // BAKERY // BAKERY // BAKERY // BAKERY " ++
  "// BAKERY // BAKERY // BAKERY // BAKERY // BAKERY // BAKERY "

/-- should_set_dummy from node_main.cc: true when PKG_EXECPATH is unset or
differs from the PKG_INVOKE_NODEJS sentinel. -/
def should_set_dummy (pkgExecpathEnv : Option String) : Bool :=
  match pkgExecpathEnv with
  | none => true
  | some v => v ≠ "PKG_INVOKE_NODEJS"

/-- The argument list reorder assembles: argv[0], then the scanned marker
strings, then (when should_set_dummy) the PKG_DUMMY_ENTRYPOINT token, then
the original arguments 1..N. -/
def reorderedArgs (bakery : List Char) (pkgExecpathEnv : Option String)
    (argv0 : String) (argvRest : List String) : List String :=
  argv0 :: (scanMarkers bakery ++
    (if should_set_dummy pkgExecpathEnv then ["PKG_DUMMY_ENTRYPOINT"] else []) ++
    argvRest)

/-- The contiguous block adjacent allocates: every argument copied in order,
each followed by its terminating NUL. -/
def argBlock : List String → List Char
  | [] => []
  | s :: rest => s.data ++ nulChar :: argBlock rest

/-- The byte offset of each argument inside the block, starting at `pos`:
adjacent advances the cursor by strlen(argv[i]) + 1 per argument. -/
def argOffsets : List String → Nat → List Nat
  | [], _ => []
  | s :: rest, pos => pos :: argOffsets rest (pos + s.data.length + 1)

/-- Read the characters of a C string: everything before the first NUL. -/
def takeToNul : List Char → List Char
  | [] => []
  | c :: rest => if c = nulChar then [] else c :: takeToNul rest

/-- The C string stored in the block at byte offset `pos`. -/
def readCStr (block : List Char) (pos : Nat) : String :=
  String.mk (takeToNul (block.drop pos))

/-- What adjacent hands to node::Start: the argument count and, for each
argument, a pointer (modelled as a byte offset) into the single contiguous
block of NUL-terminated copies. -/
structure StartInvocation where
  argc : Nat
  block : List Char
  offsets : List Nat
deriving DecidableEq, Repr

/-- adjacent from node_main.cc: copy all argument strings into one
contiguous allocation and call node::Start on the rewritten argv. -/
def adjacent (args : List String) : StartInvocation :=
  { argc := args.length, block := argBlock args, offsets := argOffsets args 0 }

/-- reorder from node_main.cc: build the reordered argument list and pass
it to adjacent (and thence to node::Start). -/
def reorder (bakery : List Char) (pkgExecpathEnv : Option String)
    (argv0 : String) (argvRest : List String) : StartInvocation :=
  adjacent (reorderedArgs bakery pkgExecpathEnv argv0 argvRest)

/-! ## Bootstrap loader: lib/internal/bootstrap/pkg.js -/

/-- The four integers baked into pkg.js as literal placeholders; in an
unpatched binary each placeholder string coerces to 0. -/
structure BakedMarkers where
  PAYLOAD_POSITION : Nat
  PAYLOAD_SIZE : Nat
  PRELUDE_POSITION : Nat
  PRELUDE_SIZE : Nat
deriving DecidableEq, Repr

/-- fs.readSync(fd, buf, 0, length, position) on a file modelled as its
byte list: the bytes delivered into the buffer. -/
def readSync (file : List Nat) (length position : Nat) : List Nat :=
  (file.drop position).take length

/-- The fs primitives the module loader shims and pkg.js restores. -/
structure FsImpls where
  internalModuleStat : Nat → Int
  internalModuleReadJSON : Nat → Option String

/-- State the bootstrap loader mutates: process.argv, the fs primitive
slots, and whether the descriptor opened on the executable is still open. -/
structure LoaderState where
  argv : List String
  fs : FsImpls
  fdOpen : Bool

/-- Handles passed to the compiled prelude. -/
inductive Handle where
  | process
  | requireFn
  | console
deriving DecidableEq, Repr

/-- The six arguments of the prelude invocation
fn(process, __require__, console, fd, PAYLOAD_POSITION, PAYLOAD_SIZE). -/
structure PreludeInvocation where
  processHandle : Handle
  requireHandle : Handle
  consoleHandle : Handle
  fd : Nat
  payloadPosition : Nat
  payloadSize : Nat
deriving DecidableEq, Repr

/-- What the short-read branch prints before exiting: the expected/actual
message and the process.env dump. -/
inductive DiagEntry where
  | shortReadMsg (expected actual : Nat)
  | envDump (env : List (String × String))
deriving DecidableEq, Repr

/-- How a run of the bootstrap loader ends. -/
inductive BootOutcome where
  | undoPatch
  | exited (code : Nat) (diag : List DiagEntry)
  | invoked (preludeBytes : List Nat) (sourcelessCompile : Bool)
      (call : PreludeInvocation)
deriving DecidableEq, Repr

/-- readPrelude from pkg.js.  Zero PRELUDE_POSITION: splice one element out
of argv at index 1 and report undoPatch.  Nonzero: read PRELUDE_SIZE bytes
at PRELUDE_POSITION from the descriptor on the running executable; a short
read prints the diagnostic (including process.env) and exits with status 1;
a full read compiles the bytes as an ordinary sourced vm.Script and invokes
the result with the six-argument prelude contract. -/
def readPrelude (m : BakedMarkers) (file : List Nat)
    (env : List (String × String)) (fd : Nat) (st : LoaderState) :
    BootOutcome × LoaderState :=
  if m.PRELUDE_POSITION = 0 then
    (.undoPatch, { st with argv := st.argv.eraseIdx 1 })
  else
    let prelude := readSync file m.PRELUDE_SIZE m.PRELUDE_POSITION
    if prelude.length ≠ m.PRELUDE_SIZE then
      (.exited 1 [.shortReadMsg m.PRELUDE_SIZE prelude.length, .envDump env], st)
    else
      (.invoked prelude false
        { processHandle := .process, requireHandle := .requireFn,
          consoleHandle := .console, fd := fd,
          payloadPosition := m.PAYLOAD_POSITION, payloadSize := m.PAYLOAD_SIZE },
       st)

/-- The outer IIFE of pkg.js: open a descriptor on process.execPath, run
readPrelude, and on the undoPatch result restore fs.internalModuleStat and
fs.internalModuleReadJSON from the original process.binding fs object and
close the descriptor. -/
def pkgBootstrap (m : BakedMarkers) (file : List Nat)
    (env : List (String × String)) (fd : Nat) (bindingFs : FsImpls)
    (st : LoaderState) : BootOutcome × LoaderState :=
  let r := readPrelude m file env fd { st with fdOpen := true }
  match r with
  | (.undoPatch, st1) =>
      (.undoPatch,
       { st1 with
           fs := { internalModuleStat := bindingFs.internalModuleStat,
                   internalModuleReadJSON := bindingFs.internalModuleReadJSON },
           fdOpen := false })
  | other => other

/-! ## Helper lemmas -/

/-- Reading a C string out of a block recovers exactly the characters
before the terminating NUL. -/
lemma takeToNul_append (s t : List Char) (h : nulChar ∉ s) :
    takeToNul (s ++ nulChar :: t) = s := by
  induction s with
  | nil => simp [takeToNul]
  | cons c cs ih =>
      have hc : ¬ (c = nulChar) := fun hc => h (by simp [hc])
      have ih2 := ih (fun hm => h (List.mem_cons_of_mem _ hm))
      simp [takeToNul, if_neg hc, List.append_eq, ih2]

/-- Every string adjacent copied into the block reads back, from its
recorded offset, as the original string. -/
lemma readCStr_argBlock (args : List String) :
    ∀ pre : List Char, (∀ s ∈ args, nulChar ∉ s.data) →
      ∀ p ∈ (argOffsets args pre.length).zip args,
        readCStr (pre ++ argBlock args) p.1 = p.2 := by
  induction args with
  | nil => intro pre _ p hp; simp [argOffsets] at hp
  | cons s rest ih =>
      intro pre h p hp
      simp only [argOffsets, argBlock, List.zip_cons_cons, List.mem_cons] at hp
      rcases hp with h1 | h2
      · subst h1
        show readCStr (pre ++ (s.data ++ nulChar :: argBlock rest)) pre.length = s
        unfold readCStr
        rw [List.drop_left, takeToNul_append _ _ (h s (by simp))]
      · have ih2 := ih (pre ++ s.data ++ [nulChar])
          (fun t ht => h t (List.mem_cons_of_mem _ ht))
        have hlen : (pre ++ s.data ++ [nulChar]).length =
            pre.length + s.data.length + 1 := by simp; omega
        have hblk : pre ++ s.data ++ [nulChar] ++ argBlock rest =
            pre ++ (s.data ++ nulChar :: argBlock rest) := by
          simp [List.append_assoc]
        rw [hlen, hblk] at ih2
        exact ih2 p h2

/-- The C string strlen2 measures contains no NUL. -/
lemma not_nul_mem_take_strlen2 (buf : List Char) :
    nulChar ∉ buf.take (strlen2 buf) := by
  induction buf with
  | nil => simp [strlen2]
  | cons c cs ih =>
      by_cases hc : c = nulChar
      · simp [strlen2, hc]
      · have hs : strlen2 (c :: cs) = strlen2 cs + 1 := by
          simp [strlen2, hc, Nat.add_comm]
        rw [hs, List.take_succ_cons]
        intro hm
        rcases List.mem_cons.mp hm with h1 | h1
        · exact hc h1.symm
        · exact ih h1

/-- No scanned marker string contains a NUL. -/
lemma scanMarkersAux_noNul (fuel : Nat) :
    ∀ buf : List Char, ∀ s ∈ scanMarkersAux fuel buf, nulChar ∉ s.data := by
  induction fuel with
  | zero => intro buf s hs; simp [scanMarkersAux] at hs
  | succ n ih =>
      intro buf s hs
      simp only [scanMarkersAux] at hs
      by_cases hw : strlen2 buf = 0
      · simp [hw] at hs
      · rw [if_neg hw, List.mem_cons] at hs
        rcases hs with h1 | h1
        · subst h1; exact not_nul_mem_take_strlen2 buf
        · exact ih _ s h1

/-- No scanned marker string contains a NUL. -/
lemma scanMarkers_noNul (buf : List Char) :
    ∀ s ∈ scanMarkers buf, nulChar ∉ s.data :=
  scanMarkersAux_noNul buf.length buf

/-- should_set_dummy is true exactly away from the PKG_INVOKE_NODEJS
sentinel. -/
lemma should_set_dummy_eq_true (env : Option String)
    (h : env ≠ some "PKG_INVOKE_NODEJS") : should_set_dummy env = true := by
  cases env with
  | none => rfl
  | some v =>
      simp only [should_set_dummy, ne_eq, decide_eq_true_eq]
      intro hv
      exact h (by rw [hv])

/-- should_set_dummy is false on the sentinel. -/
lemma should_set_dummy_eq_false :
    should_set_dummy (some "PKG_INVOKE_NODEJS") = false := by
  simp [should_set_dummy]

/-- No modelled engine operation writes a string back into an undefined
source slot. -/
lemma runUnitOps_preserves_undef (ops : List UnitOp) (sc : VScript)
    (h : sc.source = SourceSlot.undef) :
    (runUnitOps ops sc).source = SourceSlot.undef := by
  induction ops generalizing sc with
  | nil => exact h
  | cons op rest ih =>
      show (runUnitOps rest (applyUnitOp op sc)).source = SourceSlot.undef
      apply ih
      cases op <;> simp [applyUnitOp, fixSourcelessScript, h]

/-! ## Claim theorems -/

/-- Claim C1: the patched SerializedCodeData::SanityCheck is determined
solely by the blob's magic number, version hash, flags hash, checksum and
payload-length bound: two blobs identical in those fields and in bytecode
payload but produced from different originating source texts (and hence
possibly carrying different source-hash header slots and different expected
source hashes) yield identical results, and no SOURCE_MISMATCH outcome is
ever returned. -/
theorem claim_C1 (cenv : CodeSerializerEnv) (d : SerializedCodeData)
    (sh1 sh2 esh1 esh2 : Nat) (src1 src2 : String) :
    sanityCheck cenv esh1
        (ProducedBlob.mk { d with sourceHash := sh1 } src1).blob =
      sanityCheck cenv esh2
        (ProducedBlob.mk { d with sourceHash := sh2 } src2).blob
    ∧ ∀ (esh : Nat) (b : ProducedBlob),
        sanityCheck cenv esh b.blob ≠ SanityCheckResult.SOURCE_MISMATCH := by
  constructor
  · rfl
  · intro esh b
    unfold sanityCheck
    repeat' split
    all_goals simp

/-- Claim C2: a sourceless compile with produceCachedData=false whose
cached data the engine rejects reports cachedDataRejected=true on the
script object (and does not fix the source), and the host layer surfaces a
ConfigurationError to the caller instead of an ok result. -/
theorem claim_C2 (f : V8Flags) :
    (contextifyScriptNew
        { sourceless := true, produceCachedData := false, hasCachedData := true,
          cacheRejected := true, compileFails := false } f).1 =
      some { cachedDataRejected := some true, sourceFixed := false }
    ∧ (hostCompile
        { sourceless := true, produceCachedData := false, hasCachedData := true,
          cacheRejected := true, compileFails := false } f).1 =
      HostOutcome.configurationError := by
  constructor <;> rfl

/-- Claim C3: when a sourceless compile consumes and accepts cached data
FixSourcelessScript runs, and from that moment the script source slot reads
as the undefined sentinel (distinct from the empty string) for the unit's
entire lifetime under every modelled engine operation, and
ShouldFlushBytecode answers false for the unit under every flush mode and
every function-data shape. -/
theorem claim_C3 (f : V8Flags) (sc : VScript) (ops : List UnitOp)
    (fd : FunctionData) (mode : BytecodeFlushMode) :
    (contextifyScriptNew
        { sourceless := true, produceCachedData := false, hasCachedData := true,
          cacheRejected := false, compileFails := false } f).1 =
      some { cachedDataRejected := some false, sourceFixed := true }
    ∧ (fixSourcelessScript sc).source = SourceSlot.undef
    ∧ SourceSlot.undef ≠ SourceSlot.str ""
    ∧ (runUnitOps ops (fixSourcelessScript sc)).source = SourceSlot.undef
    ∧ shouldFlushBytecode
        { script := some (runUnitOps ops (fixSourcelessScript sc)),
          functionData := fd } mode = false := by
  have hrun : (runUnitOps ops (fixSourcelessScript sc)).source = SourceSlot.undef :=
    runUnitOps_preserves_undef ops _ rfl
  refine ⟨rfl, rfl, by simp, hrun, ?_⟩
  cases fd <;> cases mode <;> simp [shouldFlushBytecode, hrun]

/-- Claim C4, counterexample: on the compile-failure return path of a
sourceless cache-producing compile, the engine flags are NOT restored: with
lazy initially true, the function returns with lazy still false. -/
theorem claim_C4_counterexample :
    ((contextifyScriptNew
        { sourceless := true, produceCachedData := true, hasCachedData := false,
          cacheRejected := false, compileFails := true }
        { lazy := true, predictable := false,
          save_lazy := true, save_predictable := false }).2.lazy = false)
    ∧ (V8Flags.lazy
        { lazy := true, predictable := false,
          save_lazy := true, save_predictable := false } = true) := by
  constructor <;> rfl

/-- Claim C4, amended: with sourceless=true and produceCachedData=true the
lazy flag is forced false and the predictable flag true for the duration of
the compile; on the SUCCESSFUL return path both flags are restored to the
exact values they held before the call, while the compile-failure path
returns early with the overridden values still in place; when sourceless is
false, the flags are untouched on every path. -/
theorem claim_C4_amended (f : V8Flags) (hasC rej : Bool) :
    ((contextifyScriptNew
        { sourceless := true, produceCachedData := true, hasCachedData := hasC,
          cacheRejected := rej, compileFails := true } f).2.lazy = false
      ∧ (contextifyScriptNew
        { sourceless := true, produceCachedData := true, hasCachedData := hasC,
          cacheRejected := rej, compileFails := true } f).2.predictable = true)
    ∧ ((contextifyScriptNew
        { sourceless := true, produceCachedData := true, hasCachedData := hasC,
          cacheRejected := rej, compileFails := false } f).2.lazy = f.lazy
      ∧ (contextifyScriptNew
        { sourceless := true, produceCachedData := true, hasCachedData := hasC,
          cacheRejected := rej, compileFails := false } f).2.predictable = f.predictable)
    ∧ ∀ produce fails : Bool,
        (contextifyScriptNew
          { sourceless := false, produceCachedData := produce, hasCachedData := hasC,
            cacheRejected := rej, compileFails := fails } f).2 = f := by
  refine ⟨⟨rfl, rfl⟩, ⟨rfl, rfl⟩, ?_⟩
  intro produce fails
  cases fails <;> rfl

/-- Claim C8: in the class-positions branch of JSFunction::ToString, a
script whose source is the undefined sentinel yields the fixed placeholder
string and never slices the source storage, independent of the recorded
class positions. -/
theorem claim_C8 (startPos endPos : Nat) :
    jsFunctionToStringClassCase SourceSlot.undef startPos endPos =
      ("class \x7b\x7d", false) := rfl

/-- Claim C9: prepareMainThreadExecution is a process-wide one-shot: the
guard is false at process start and true after the first invocation; any
later invocation, with any argument, returns the state unchanged; invoking
the routine twice leaves the state identical to invoking it once. -/
theorem claim_C9 {σ : Type} (steps : Bool → σ → σ) (proc : σ)
    (b b1 b2 : Bool) (s : PrepState σ) :
    (initialPrepState proc).alreadyPrepared = false
    ∧ (prepareMainThreadExecution steps b (initialPrepState proc)).alreadyPrepared = true
    ∧ (s.alreadyPrepared = true → prepareMainThreadExecution steps b s = s)
    ∧ prepareMainThreadExecution steps b2 (prepareMainThreadExecution steps b1 s) =
        prepareMainThreadExecution steps b1 s := by
  refine ⟨rfl, rfl, ?_, ?_⟩
  · intro h
    simp [prepareMainThreadExecution, h]
  · by_cases h : s.alreadyPrepared = true <;>
      simp [prepareMainThreadExecution, h]

/-- Witness for claim C9 at a concrete late invocation: a state whose guard
is already set is returned unchanged. -/
theorem claim_C9_witness :
    prepareMainThreadExecution (fun _ n => n + 1) true
        { alreadyPrepared := true, proc := (0 : Nat) } =
      { alreadyPrepared := true, proc := (0 : Nat) } :=
  (claim_C9 (fun _ n => n + 1) 0 true true true
    { alreadyPrepared := true, proc := (0 : Nat) }).2.2.1 rfl

/-- Claim C5: with a nonzero baked prelude offset, readPrelude reads exactly
PRELUDE_SIZE bytes at PRELUDE_POSITION from the descriptor on the running
executable; on a full read it compiles the bytes as an ordinary sourced
script and invokes it with exactly (process, require, console, fd,
PAYLOAD_POSITION, PAYLOAD_SIZE); a short read exits the process with status
1 after printing a diagnostic that includes the environment; and the
outcome depends only on the bytes read at the prelude coordinates, not on
the surrounding engine-binary or payload bytes. -/
theorem claim_C5 (m : BakedMarkers) (file : List Nat)
    (env : List (String × String)) (fd : Nat) (st : LoaderState)
    (hpos : m.PRELUDE_POSITION ≠ 0) :
    (m.PRELUDE_POSITION + m.PRELUDE_SIZE ≤ file.length →
        (readSync file m.PRELUDE_SIZE m.PRELUDE_POSITION).length = m.PRELUDE_SIZE)
    ∧ (m.PRELUDE_POSITION + m.PRELUDE_SIZE ≤ file.length →
        (readPrelude m file env fd st).1 =
          BootOutcome.invoked
            ((file.drop m.PRELUDE_POSITION).take m.PRELUDE_SIZE) false
            { processHandle := Handle.process, requireHandle := Handle.requireFn,
              consoleHandle := Handle.console, fd := fd,
              payloadPosition := m.PAYLOAD_POSITION,
              payloadSize := m.PAYLOAD_SIZE })
    ∧ ((readSync file m.PRELUDE_SIZE m.PRELUDE_POSITION).length ≠ m.PRELUDE_SIZE →
        (readPrelude m file env fd st).1 =
          BootOutcome.exited 1
            [DiagEntry.shortReadMsg m.PRELUDE_SIZE
               (readSync file m.PRELUDE_SIZE m.PRELUDE_POSITION).length,
             DiagEntry.envDump env])
    ∧ ∀ file2 : List Nat,
        readSync file m.PRELUDE_SIZE m.PRELUDE_POSITION =
          readSync file2 m.PRELUDE_SIZE m.PRELUDE_POSITION →
        (readPrelude m file env fd st).1 = (readPrelude m file2 env fd st).1 := by
  have hlen : ∀ g : List Nat, (readSync g m.PRELUDE_SIZE m.PRELUDE_POSITION).length =
      min m.PRELUDE_SIZE (g.length - m.PRELUDE_POSITION) := by
    intro g; simp [readSync]
  refine ⟨?_, ?_, ?_, ?_⟩
  · intro hfull
    rw [hlen]; omega
  · intro hfull
    have hfl : (readSync file m.PRELUDE_SIZE m.PRELUDE_POSITION).length =
        m.PRELUDE_SIZE := by rw [hlen]; omega
    simp only [readPrelude, if_neg hpos]
    rw [if_neg (not_ne_iff.mpr hfl)]
    rfl
  · intro hshort
    simp only [readPrelude, if_neg hpos]
    rw [if_pos hshort]
  · intro file2 heq
    simp only [readPrelude, if_neg hpos, heq]

/-- Witness for claim C5: a seven-byte executable image with the prelude at
offset 3 and length 2 invokes the prelude on exactly bytes 3 and 4, as an
ordinary sourced compile, with the six-argument contract. -/
theorem claim_C5_witness :
    (readPrelude
        { PAYLOAD_POSITION := 5, PAYLOAD_SIZE := 2,
          PRELUDE_POSITION := 3, PRELUDE_SIZE := 2 }
        [10, 11, 12, 13, 14, 15, 16] [] 9
        { argv := ["a"],
          fs := { internalModuleStat := fun _ => 0,
                  internalModuleReadJSON := fun _ => none },
          fdOpen := true }).1 =
      BootOutcome.invoked [13, 14] false
        { processHandle := Handle.process, requireHandle := Handle.requireFn,
          consoleHandle := Handle.console, fd := 9,
          payloadPosition := 5, payloadSize := 2 } :=
  (claim_C5
    { PAYLOAD_POSITION := 5, PAYLOAD_SIZE := 2,
      PRELUDE_POSITION := 3, PRELUDE_SIZE := 2 }
    [10, 11, 12, 13, 14, 15, 16] [] 9
    { argv := ["a"],
      fs := { internalModuleStat := fun _ => 0,
              internalModuleReadJSON := fun _ => none },
      fdOpen := true }
    (by decide)).2.1 (by decide)

/-- Claim C6: in the Direct case (PKG_EXECPATH absent or not the
PKG_INVOKE_NODEJS sentinel) reorder builds
[argv0, marker strings, PKG_DUMMY_ENTRYPOINT, original args 1..N]; in the
SelfInvoked case it builds the same list without the dummy token; and in
both cases every resulting string is copied, order- and content-preserving,
into the single contiguous block of NUL-terminated strings handed to
node::Start: reading the block at each recorded offset recovers exactly the
intended argument. -/
theorem claim_C6 (bakery : List Char) (env : Option String)
    (argv0 : String) (argvRest : List String)
    (h0 : nulChar ∉ argv0.data)
    (hR : ∀ s ∈ argvRest, nulChar ∉ s.data) :
    (env ≠ some "PKG_INVOKE_NODEJS" →
        reorderedArgs bakery env argv0 argvRest =
          argv0 :: (scanMarkers bakery ++ ["PKG_DUMMY_ENTRYPOINT"] ++ argvRest))
    ∧ (env = some "PKG_INVOKE_NODEJS" →
        reorderedArgs bakery env argv0 argvRest =
          argv0 :: (scanMarkers bakery ++ argvRest))
    ∧ (reorder bakery env argv0 argvRest).argc =
        (reorderedArgs bakery env argv0 argvRest).length
    ∧ (reorder bakery env argv0 argvRest).block =
        argBlock (reorderedArgs bakery env argv0 argvRest)
    ∧ ∀ p ∈ ((reorder bakery env argv0 argvRest).offsets).zip
          (reorderedArgs bakery env argv0 argvRest),
        readCStr ((reorder bakery env argv0 argvRest).block) p.1 = p.2 := by
  have hall : ∀ s ∈ reorderedArgs bakery env argv0 argvRest, nulChar ∉ s.data := by
    intro s hs
    simp only [reorderedArgs, List.mem_cons, List.mem_append] at hs
    rcases hs with h1 | (h1 | h1) | h1
    · subst h1; exact h0
    · exact scanMarkers_noNul bakery s h1
    · by_cases hb : should_set_dummy env = true
      · rw [if_pos hb, List.mem_singleton] at h1
        subst h1; decide
      · rw [if_neg hb] at h1
        simp at h1
    · exact hR s h1
  refine ⟨?_, ?_, rfl, rfl, ?_⟩
  · intro h
    rw [reorderedArgs, should_set_dummy_eq_true env h]
    simp
  · intro h
    subst h
    rw [reorderedArgs, should_set_dummy_eq_false]
    simp
  · intro p hp
    have := readCStr_argBlock (reorderedArgs bakery env argv0 argvRest) [] hall p hp
    simpa using this

/-- Witness for claim C6: with a one-marker bakery region and PKG_EXECPATH
unset, the reordered argument list is argv0, the marker, the dummy token,
then the original tail. -/
theorem claim_C6_witness :
    reorderedArgs [Char.ofNat 109, nulChar, nulChar] none "a" ["b"] =
      "a" :: (scanMarkers [Char.ofNat 109, nulChar, nulChar] ++
        ["PKG_DUMMY_ENTRYPOINT"] ++ ["b"]) :=
  (claim_C6 [Char.ofNat 109, nulChar, nulChar] none "a" ["b"]
    (by decide) (by decide)).1 (by simp)

/-- Claim C7: with the zero prelude-offset sentinel, the bootstrap loader
removes exactly the element at index 1 from process.argv (leaving index 0
and shifting the rest down by one) and restores fs.internalModuleStat and
fs.internalModuleReadJSON to the original process-binding implementations,
which therefore return results identical to the unshimmed originals on
every input. -/
theorem claim_C7 (m : BakedMarkers) (file : List Nat)
    (env : List (String × String)) (fd : Nat) (bindingFs : FsImpls)
    (st : LoaderState) (hz : m.PRELUDE_POSITION = 0) :
    (pkgBootstrap m file env fd bindingFs st).1 = BootOutcome.undoPatch
    ∧ (pkgBootstrap m file env fd bindingFs st).2.argv = st.argv.eraseIdx 1
    ∧ (2 ≤ st.argv.length →
        (pkgBootstrap m file env fd bindingFs st).2.argv.length = st.argv.length - 1)
    ∧ (pkgBootstrap m file env fd bindingFs st).2.argv.head? = st.argv.head?
    ∧ (∀ i : Nat, (pkgBootstrap m file env fd bindingFs st).2.argv.get? (i + 1) =
        st.argv.get? (i + 2))
    ∧ (∀ x, (pkgBootstrap m file env fd bindingFs st).2.fs.internalModuleStat x =
        bindingFs.internalModuleStat x)
    ∧ (∀ x, (pkgBootstrap m file env fd bindingFs st).2.fs.internalModuleReadJSON x =
        bindingFs.internalModuleReadJSON x) := by
  have hred : pkgBootstrap m file env fd bindingFs st =
      (BootOutcome.undoPatch,
       { argv := st.argv.eraseIdx 1,
         fs := { internalModuleStat := bindingFs.internalModuleStat,
                 internalModuleReadJSON := bindingFs.internalModuleReadJSON },
         fdOpen := false }) := by
    simp [pkgBootstrap, readPrelude, hz]
  rw [hred]
  refine ⟨rfl, rfl, ?_, ?_, ?_, fun x => rfl, fun x => rfl⟩
  · intro hlen
    match st.argv, hlen with
    | a :: b :: t, _ => simp [List.eraseIdx]
  · match st.argv with
    | [] => rfl
    | a :: t => cases t <;> rfl
  · intro i
    match st.argv with
    | [] => rfl
    | [a] => rfl
    | a :: b :: t => simp [List.eraseIdx]

/-- Witness for claim C7: a concrete three-argument process sees argv
["node", "script"] after the placeholder at index 1 is removed, and the
restored stat primitive agrees with the binding original. -/
theorem claim_C7_witness :
    (pkgBootstrap
        { PAYLOAD_POSITION := 0, PAYLOAD_SIZE := 0,
          PRELUDE_POSITION := 0, PRELUDE_SIZE := 0 }
        [] [] 3
        { internalModuleStat := fun n => Int.ofNat n,
          internalModuleReadJSON := fun _ => none }
        { argv := ["node", "PKG_DUMMY_ENTRYPOINT", "script"],
          fs := { internalModuleStat := fun _ => -1,
                  internalModuleReadJSON := fun _ => some "" },
          fdOpen := false }).2.argv = ["node", "script"] :=
  (claim_C7
    { PAYLOAD_POSITION := 0, PAYLOAD_SIZE := 0,
      PRELUDE_POSITION := 0, PRELUDE_SIZE := 0 }
    [] [] 3
    { internalModuleStat := fun n => Int.ofNat n,
      internalModuleReadJSON := fun _ => none }
    { argv := ["node", "PKG_DUMMY_ENTRYPOINT", "script"],
      fs := { internalModuleStat := fun _ => -1,
              internalModuleReadJSON := fun _ => some "" },
      fdOpen := false } rfl).2.1

set_option maxRecDepth 8192 in
/-- Claim C10: the BAKERY constant of an unpatched binary begins with a NUL
byte, so reorder's marker scan collects zero marker strings and the
argument list handed on is exactly argv0, the dummy token only in the
Direct case, then the original arguments 1..N. -/
theorem claim_C10 (env : Option String) (argv0 : String) (argvRest : List String) :
    BAKERY.data.head? = some nulChar
    ∧ scanMarkers BAKERY.data = []
    ∧ (env ≠ some "PKG_INVOKE_NODEJS" →
        reorderedArgs BAKERY.data env argv0 argvRest =
          argv0 :: "PKG_DUMMY_ENTRYPOINT" :: argvRest)
    ∧ (env = some "PKG_INVOKE_NODEJS" →
        reorderedArgs BAKERY.data env argv0 argvRest = argv0 :: argvRest) := by
  have hscan : scanMarkers BAKERY.data = [] := by decide
  refine ⟨by decide, hscan, ?_, ?_⟩
  · intro h
    rw [reorderedArgs, should_set_dummy_eq_true env h, hscan]
    simp
  · intro h
    subst h
    rw [reorderedArgs, should_set_dummy_eq_false, hscan]
    simp

/-- Witness for claim C10: a self-invoked unpatched binary passes through
exactly argv0 followed by the original tail. -/
theorem claim_C10_witness :
    reorderedArgs BAKERY.data (some "PKG_INVOKE_NODEJS") "x" [] = ["x"] :=
  (claim_C10 (some "PKG_INVOKE_NODEJS") "x" []).2.2.2 rfl

/-- Witness for claim C1: a concrete blob under a concrete build
environment never produces the SOURCE_MISMATCH outcome. -/
theorem claim_C1_witness :
    sanityCheck
        { kMagicNumber := 1, versionHashOfBuild := 2, flagListHash := 3,
          kHeaderSizeAligned := 4, checksum := fun l => l.length }
        7
        (ProducedBlob.mk
          { magicNumber := 1, versionHash := 2, sourceHash := 0, flagsHash := 3,
            payloadLength := 2, checksumField := 2, size := 6, payload := [9, 9] }
          "a").blob ≠ SanityCheckResult.SOURCE_MISMATCH :=
  (claim_C1
    { kMagicNumber := 1, versionHashOfBuild := 2, flagListHash := 3,
      kHeaderSizeAligned := 4, checksum := fun l => l.length }
    { magicNumber := 1, versionHash := 2, sourceHash := 0, flagsHash := 3,
      payloadLength := 2, checksumField := 2, size := 6, payload := [9, 9] }
    0 0 7 7 "a" "b").2 7
    (ProducedBlob.mk
      { magicNumber := 1, versionHash := 2, sourceHash := 0, flagsHash := 3,
        payloadLength := 2, checksumField := 2, size := 6, payload := [9, 9] }
      "a")

/-- Witness for claim C2: a concrete flag state surfaces
ConfigurationError on a rejected sourceless cache consume. -/
theorem claim_C2_witness :
    (hostCompile
        { sourceless := true, produceCachedData := false, hasCachedData := true,
          cacheRejected := true, compileFails := false }
        { lazy := true, predictable := false,
          save_lazy := false, save_predictable := false }).1 =
      HostOutcome.configurationError :=
  (claim_C2
    { lazy := true, predictable := false,
      save_lazy := false, save_predictable := false }).2

/-- Witness for claim C3: a concrete fixed unit refuses stress flushing
even after further engine operations. -/
theorem claim_C3_witness :
    shouldFlushBytecode
        { script := some (runUnitOps
            [UnitOp.shouldFlush BytecodeFlushMode.kStressFlushBytecode]
            (fixSourcelessScript { source := SourceSlot.str "x" })),
          functionData := FunctionData.bytecodeArray true }
        BytecodeFlushMode.kStressFlushBytecode = false :=
  (claim_C3
    { lazy := true, predictable := false,
      save_lazy := false, save_predictable := false }
    { source := SourceSlot.str "x" }
    [UnitOp.shouldFlush BytecodeFlushMode.kStressFlushBytecode]
    (FunctionData.bytecodeArray true)
    BytecodeFlushMode.kStressFlushBytecode).2.2.2.2

/-- Witness for claim C4 (amended): a concrete successful sourceless
cache-producing compile restores the lazy flag to its prior value true. -/
theorem claim_C4_amended_witness :
    (contextifyScriptNew
        { sourceless := true, produceCachedData := true, hasCachedData := false,
          cacheRejected := false, compileFails := false }
        { lazy := true, predictable := false,
          save_lazy := false, save_predictable := false }).2.lazy = true :=
  (claim_C4_amended
    { lazy := true, predictable := false,
      save_lazy := false, save_predictable := false } false false).2.1.1

/-- Witness for claim C8: concrete class positions still yield the fixed
placeholder on an undefined source. -/
theorem claim_C8_witness :
    jsFunctionToStringClassCase SourceSlot.undef 3 17 =
      ("class \x7b\x7d", false) :=
  claim_C8 3 17

end PkgPatch
